import Mathlib

/-!
# go-tpm example commands: a shallow embedding

The six command-line tools under `examples/` (`tpm2-createsrk`, `tpm2-evictcontrol`,
`tpm2-flushcontext`, `tpm2-load`, `tpm2-seal`, `tpm2-unseal`) and `examples/util` are
embedded as pure functions.

* The flags of a command are a value of `Flags`.
* Every call that leaves the process (the TPM transport, the `tpm2` commands, file I/O,
  the output streams) is recorded, with its arguments, in a trace of `Call`s.
* What such a call returns is read from a `World`: one outcome per call site, so every
  behaviour of the device and of the file system is covered by quantifying over `World`.
* The `*[]error` argument is passed in and returned explicitly; `defer` is modelled by
  running the deferred closure on the state the rest of the body produces.
* A call made with the value a failed call returned (a transport that did not open, the
  handle of a session that did not start) is recorded like any other call, and the
  `World` says what it returns. A panic raised inside a library call is not modelled:
  about a run in which one can occur, the theorems speak only of the calls made before
  it.
* `fmt.Sscanf(s, "%x", &u32)`, `hex.DecodeString` and the `%x` verb of `fmt.Fprintf` are
  Go standard-library code; they are modelled here from their Go sources.
-/

namespace GoTpm

/-! ## Errors -/

/-- An error value returned by a library call. -/
inductive LibError
  /-- Returned by the transport, a `tpm2` command or a file operation. -/
  | os (descr : String)
  /-- The `hex.InvalidByteError` for the given byte. -/
  | hexInvalidByte (b : Nat)
  /-- The `hex.ErrLength` error: odd length hex string. -/
  | hexErrLength
  /-- Scanning hit the end of the input where data was needed. -/
  | scanEOF
  /-- Scanning met a newline while skipping space. -/
  | scanUnexpectedNewline
  /-- Scanning found no digit: "expected integer". -/
  | scanExpectedInteger
  /-- The `strconv.ParseUint` syntax error on the token. -/
  | strconvSyntax (tok : List Char)
  /-- The `strconv.ParseUint` range error on the token. -/
  | strconvRange (tok : List Char)
  /-- Scanning: "unsigned integer overflow on token". -/
  | scanOverflow (tok : List Char)
  deriving DecidableEq, Repr

/-- An operand of `fmt.Errorf`. -/
inductive Arg
  | str (s : String)
  | err (e : LibError)
  deriving DecidableEq, Repr

/-- The error built by `fmt.Errorf(format, args...)`; its description is the format
applied to the operands. -/
structure GoError where
  format : String
  args : List Arg
  deriving DecidableEq, Repr

/-- The call `fmt.Errorf(format, args...)`. -/
def Errorf (format : String) (args : List Arg) : GoError := ⟨format, args⟩

/-! ## The tpm2 vocabulary the commands use -/

/-- The `tpm2.Algorithm` values that occur; `AlgUnknown` is the zero value. -/
inductive Algorithm
  | AlgUnknown | AlgRSA | AlgSHA256 | AlgAES | AlgNull | AlgCFB
  deriving DecidableEq, Repr

/-- The `tpm2.SessionType` values that occur. -/
inductive SessionType
  | SessionPolicy
  deriving DecidableEq, Repr

/-- The `tpm2.KeyProp` attribute flags that occur. -/
inductive KeyProp
  | FlagFixedTPM | FlagFixedParent | FlagSensitiveDataOrigin | FlagUserWithAuth
  | FlagRestricted | FlagDecrypt | FlagNoDA
  deriving DecidableEq, Repr

/-- The reserved handle `tpm2.HandleOwner`. -/
def HandleOwner : Nat := 0x40000001

/-- The reserved handle `tpm2.HandleNull`. -/
def HandleNull : Nat := 0x40000007

/-- The struct `tpm2.PCRSelection`. -/
structure PCRSelection where
  Hash : Algorithm := .AlgUnknown
  PCRs : List Int := []
  deriving DecidableEq, Repr

/-- The struct `tpm2.SymScheme`. -/
structure SymScheme where
  Alg : Algorithm
  KeyBits : Nat
  Mode : Algorithm
  deriving DecidableEq, Repr

/-- The struct `tpm2.RSAParams`, with the fields the SRK template sets. -/
structure RSAParams where
  Symmetric : SymScheme
  KeyBits : Nat
  Exponent : Nat
  ModulusRaw : List Nat
  deriving DecidableEq, Repr

/-- The struct `tpm2.Public`, with the fields the SRK template sets (`Typ` is the field
`Type`); `Attributes` is the set of flags that are or-ed together. -/
structure Public where
  Typ : Algorithm
  NameAlg : Algorithm
  Attributes : List KeyProp
  AuthPolicy : List Nat
  RSAParameters : RSAParams
  deriving DecidableEq, Repr

/-- The variable `srkTemplate` of `createsrk.go`. -/
def srkTemplate : Public :=
  { Typ := .AlgRSA
    NameAlg := .AlgSHA256
    Attributes := [.FlagFixedTPM, .FlagFixedParent, .FlagSensitiveDataOrigin,
      .FlagUserWithAuth, .FlagRestricted, .FlagDecrypt, .FlagNoDA]
    AuthPolicy := []
    RSAParameters :=
      { Symmetric := { Alg := .AlgAES, KeyBits := 128, Mode := .AlgCFB }
        KeyBits := 2048
        Exponent := 0
        ModulusRaw := List.replicate 256 0 } }

/-! ## Calls, worlds and states -/

/-- The two output streams. -/
inductive Stream
  | Stdout | Stderr
  deriving DecidableEq, Repr

/-- The operand of a `fmt.Fprintf` call of the commands. -/
inductive PrintArg
  /-- An `error`: `%s` prints its description. -/
  | error (e : GoError)
  /-- An `int`. -/
  | int (i : Nat)
  /-- A `tpmutil.Handle`. -/
  | handle (h : Nat)
  deriving DecidableEq, Repr

/-- A call that leaves the process, with its arguments. The transport argument `rwc` of
the `tpm2` functions is the value `OpenTPM` returned and is left implicit. -/
inductive Call
  | OpenTPM (path : String)
  | Close
  | StartAuthSession (tpmKey bindKey : Nat) (nonceCaller secret : List Nat)
      (se : SessionType) (sym hashAlg : Algorithm)
  | FlushContext (handle : Nat)
  | PolicyPCR (session : Nat) (expectedDigest : List Nat) (sel : PCRSelection)
  | PolicyPassword (session : Nat)
  | PolicyGetDigest (session : Nat)
  | Seal (parentHandle : Nat) (parentPassword objectPassword : String)
      (objectAuthPolicy sensitiveData : List Nat)
  | UnsealWithSession (session itemHandle : Nat) (password : String)
  | CreatePrimary (owner : Nat) (sel : PCRSelection) (parentPassword ownerPassword : String)
      (template : Public)
  | EvictControl (ownerAuth : String) (owner objectHandle persistentHandle : Nat)
  | Load (parentHandle : Nat) (parentAuth : String) (publicBlob privateBlob : List Nat)
  | ReadFile (path : String)
  | WriteFile (path : String) (data : List Nat) (perm : Nat)
  | Fprintf (w : Stream) (format : String) (arg : PrintArg)
  deriving DecidableEq, Repr

/-- What the calls return. A field of type `Option LibError` is the returned `error`
(`none` is `nil`); where a call returns values as well, they come first. File calls are
indexed by their position among the file calls of the run. -/
structure World where
  openTPM : Option LibError := none
  close : Option LibError := none
  startAuthSession : Nat × Option LibError := (0, none)
  flushContext : Option LibError := none
  policyPCR : Option LibError := none
  policyPassword : Option LibError := none
  policyGetDigest : List Nat × Option LibError := ([], none)
  sealData : List Nat × List Nat × Option LibError := ([], [], none)
  unsealWithSession : List Nat × Option LibError := ([], none)
  createPrimary : Nat × Option LibError := (0, none)
  evictControl : Option LibError := none
  load : Nat × Option LibError := (0, none)
  readFile : Nat → List Nat × Option LibError := fun _ => ([], none)
  writeFile : Nat → Option LibError := fun _ => none

/-- The flags of the commands, with the defaults the source declares. -/
structure Flags where
  tpmPath : String := "/dev/tpm0"
  pcr : Int := -1
  parentHandleFlag : String := ""
  parentPassword : String := ""
  objectHandleFlag : String := ""
  persistentHandleFlag : String := ""
  flushHandleFlag : String := ""
  objectPassword : String := ""
  data : String := ""
  privatePath : String := ""
  publicPath : String := ""

/-- The state an operation threads: the error list behind `errors *[]error` and the
calls made so far. -/
structure St where
  errors : List GoError
  trace : List Call
  deriving DecidableEq, Repr

/-- Record a call. -/
def St.call (s : St) (c : Call) : St := { s with trace := s.trace ++ [c] }

/-- The statement `*errors = append(*errors, e)`. -/
def St.fail (s : St) (e : GoError) : St := { s with errors := s.errors ++ [e] }

/-- The statement `if err != nil { *errors = append(*errors, e) }` with no `return` in
its body: `mk` builds the appended error from `err`. -/
def St.failIf (s : St) (err : Option LibError) (mk : LibError → GoError) : St :=
  match err with
  | some err => s.fail (mk err)
  | none => s

/-- The result of a `main`: the calls made and the exit code of the process. -/
structure Exit where
  trace : List Call
  code : Nat
  deriving DecidableEq, Repr

/-! ## Standard-library functions the commands call -/

deriving instance DecidableEq for Except

/-- The function `fromHexChar` of `encoding/hex`: the value of a hexadecimal digit byte. -/
def fromHexChar (c : Nat) : Option Nat :=
  if 48 ≤ c ∧ c ≤ 57 then some (c - 48)
  else if 97 ≤ c ∧ c ≤ 102 then some (c - 97 + 10)
  else if 65 ≤ c ∧ c ≤ 70 then some (c - 65 + 10)
  else none

/-- The function `hex.Decode` on the bytes of the source: pairs of digits become bytes;
an invalid byte is reported where it is met, and an odd length after that. -/
def hexDecode : List Nat → Except LibError (List Nat)
  | [] => .ok []
  | [p] =>
    match fromHexChar p with
    | none => .error (.hexInvalidByte p)
    | some _ => .error .hexErrLength
  | p :: q :: rest =>
    match fromHexChar p with
    | none => .error (.hexInvalidByte p)
    | some a =>
      match fromHexChar q with
      | none => .error (.hexInvalidByte q)
      | some b =>
        match hexDecode rest with
        | .error e => .error e
        | .ok bs => .ok ((a * 16 + b) :: bs)

/-- The bytes of a Go string. -/
def bytesOf (s : String) : List Nat := s.toUTF8.data.toList.map UInt8.toNat

/-- The function `hex.DecodeString`. -/
def DecodeString (s : String) : Except LibError (List Nat) := hexDecode (bytesOf s)

/-- The function `isSpace` of `fmt`: the Unicode white-space code points below 2^16. -/
def isSpace (r : Char) : Bool :=
  let n := r.toNat
  (0x0009 ≤ n && n ≤ 0x000d) || n == 0x0020 || n == 0x0085 || n == 0x00a0 || n == 0x1680 ||
  (0x2000 ≤ n && n ≤ 0x200a) || n == 0x2028 || n == 0x2029 || n == 0x202f || n == 0x205f ||
  n == 0x3000

/-- The method `SkipSpace` of the scanner that `Sscanf` sets up (a newline is neither
space nor end of input there): drops leading space and stops with an error at a newline;
a carriage return before a newline is passed over. -/
def SkipSpace : List Char → Except LibError (List Char)
  | [] => .ok []
  | r :: rest =>
    if r = '\r' ∧ rest.head? = some '\n' then SkipSpace rest
    else if r = '\n' then .error .scanUnexpectedNewline
    else if isSpace r then SkipSpace rest
    else .ok (r :: rest)

/-- The constant `hexadecimalDigits` of `fmt`. -/
def hexadecimalDigits : List Char := "0123456789aAbBcCdDeEfF".toList

/-- The loop `for s.accept(digits) {}`: the longest run of accepted characters, and
what follows it. -/
def acceptAll (digits : List Char) : List Char → List Char × List Char
  | [] => ([], [])
  | r :: rest =>
    if r ∈ digits then
      let (tok, tail) := acceptAll digits rest
      (r :: tok, tail)
    else ([], r :: rest)

/-- The method `scanNumber` with `haveDigits = false`: at least one accepted character,
then as many as follow. -/
def scanNumber (digits : List Char) (input : List Char) : Except LibError (List Char × List Char) :=
  match input with
  | [] => .error .scanEOF
  | r :: rest =>
    if r ∈ digits then
      let (tok, tail) := acceptAll digits rest
      .ok (r :: tok, tail)
    else .error .scanExpectedInteger

/-- The digit value `strconv.ParseUint` gives a byte, before the comparison with the
base. -/
def digitVal (c : Char) : Option Nat :=
  let n := c.toNat
  if 48 ≤ n ∧ n ≤ 57 then some (n - 48)
  else if 97 ≤ n ∧ n ≤ 122 then some (n - 97 + 10)
  else if 65 ≤ n ∧ n ≤ 90 then some (n - 65 + 10)
  else none

/-- The digit loop of `strconv.ParseUint(tok, 16, 64)` from the accumulator `n`, on
64-bit unsigned arithmetic: `cutoff` is `maxUint64/16 + 1` and `maxVal` is `2^64 - 1`. -/
def parseUintLoop (tok : List Char) : List Char → Nat → Except LibError Nat
  | [], n => .ok n
  | c :: cs, n =>
    match digitVal c with
    | none => .error (.strconvSyntax tok)
    | some d =>
      if d ≥ 16 then .error (.strconvSyntax tok)
      else if n ≥ (2 ^ 64 - 1) / 16 + 1 then .error (.strconvRange tok)
      else
        let m := n * 16 % 2 ^ 64
        let n1 := (m + d) % 2 ^ 64
        if n1 < m ∨ n1 > 2 ^ 64 - 1 then .error (.strconvRange tok)
        else parseUintLoop tok cs n1

/-- The call `strconv.ParseUint(tok, 16, 64)`. -/
def ParseUint (tok : List Char) : Except LibError Nat :=
  match tok with
  | [] => .error (.strconvSyntax tok)
  | _ => parseUintLoop tok tok 0

/-- The method `scanUint(verb = 'x', bitSize = 32)`: skip space, require input, scan the
hexadecimal token, parse it, and reject a value that does not fit 32 bits. -/
def scanUint (input : List Char) : Except LibError Nat :=
  match SkipSpace input with
  | .error e => .error e
  | .ok input =>
    match scanNumber hexadecimalDigits input with
    | .error e => .error e
    | .ok (tok, _) =>
      match ParseUint tok with
      | .error e => .error e
      | .ok i =>
        let x := (i * 2 ^ 32 % 2 ^ 64) / 2 ^ 32
        if x ≠ i then .error (.scanOverflow tok) else .ok i

/-- The call `fmt.Sscanf(str, "%x", &val)` with `val` a `uint32`: the error, or the value
stored. The format is the one verb, which skips space and scans one operand; input
after the token is left unread. -/
def Sscanf (str : String) : Except LibError Nat :=
  match SkipSpace str.toList with
  | .error e => .error e
  | .ok input => scanUint input

/-- The lower-case digit table `ldigits` of `fmt`. -/
def ldigits : List Char := "0123456789abcdefx".toList

/-- The base-16 branch of `fmtInteger`: while `u >= 16` the low digit goes in front of
the buffer and `u` is shifted by four bits; the statement after the loop writes
`digits[u]`. The first argument bounds the iterations: the operand is a `uint64`, which
the loop leaves below 16 within 15 iterations. -/
def fmtIntegerLoop : Nat → Nat → List Char → List Char
  | 0, u, buf => ldigits.getD u '0' :: buf
  | fuel + 1, u, buf =>
    if u ≥ 16 then fmtIntegerLoop fuel (u / 16) (ldigits.getD (u % 16) '0' :: buf)
    else ldigits.getD u '0' :: buf

/-- The text the verb `%x` prints for an unsigned integer (a `tpmutil.Handle` is a
`uint32`). -/
def fmtHex (u : Nat) : String := String.mk (fmtIntegerLoop 16 u [])

/-! ## util.go -/

/-- The function `util.ParseHex32Flag`: the value and the error it returns. -/
def ParseHex32Flag (flagName : String) (flag : String) : Nat × Option GoError :=
  if flag = "" then
    (0, some (Errorf "Flag '%v' missing value." [.str flagName]))
  else
    match Sscanf flag with
    | .error err => (0, some (Errorf "Can't parse flag '%v': %v" [.str flagName, .err err]))
    | .ok val => (val, none)

/-! ## Deferred closures -/

/-- The closure deferred once the transport is held: `rwc.Close()`, whose failure is
appended with the given format. -/
def deferClose (format : String) (w : World) (s : St) : St :=
  (s.call .Close).failIf w.close fun err => Errorf format [.err err]

/-- The closure deferred after `StartAuthSession`: `tpm2.FlushContext(rwc, sessHandle)`,
whose failure is appended with the given format. -/
def deferFlush (format : String) (w : World) (sessHandle : Nat) (s : St) : St :=
  (s.call (.FlushContext sessHandle)).failIf w.flushContext fun err => Errorf format [.err err]

/-- The arguments both `seal` and `unseal` give `tpm2.StartAuthSession`. -/
def startAuthSessionCall : Call :=
  .StartAuthSession HandleNull HandleNull (List.replicate 16 0) [] .SessionPolicy .AlgNull
    .AlgSHA256

/-! ## tpm2-createsrk -/

/-- The function `createsrk` of `createsrk.go`. -/
def Createsrk.createsrk (f : Flags) (w : World) (errors : List GoError) : St :=
  let s : St := ⟨errors, []⟩
  let s := s.call (.OpenTPM f.tpmPath)
  match w.openTPM with
  | some err => s.fail (Errorf "can't open TPM %q: %s" [.str f.tpmPath, .err err])
  | none =>
  deferClose "unable to close connection to TPM: %s" w <|
  let s := s.call (.CreatePrimary HandleOwner {} "" "" srkTemplate)
  match w.createPrimary.2 with
  | some err => s.fail (Errorf "can't create primary key: %s" [.err err])
  | none => s.call (.Fprintf .Stdout "%x\n" (.handle w.createPrimary.1))

/-- The function `main` of `createsrk.go`. -/
def Createsrk.main (f : Flags) (w : World) : Exit :=
  let s := Createsrk.createsrk f w []
  { trace := s.trace ++ s.errors.map (fun err => .Fprintf .Stderr "Error: %s\n" (.error err))
    code := if s.errors.length > 0 then 1 else 0 }

/-! ## tpm2-evictcontrol -/

/-- The function `evictControl` of `evictcontrol.go`. -/
def Evictcontrol.evictControl (f : Flags) (w : World) (errors : List GoError) : St :=
  let s : St := ⟨errors, []⟩
  match Sscanf f.objectHandleFlag with
  | .error err => s.fail (Errorf "invalid flag 'object-handle': %s" [.err err])
  | .ok objectHandle =>
  match Sscanf f.persistentHandleFlag with
  | .error err => s.fail (Errorf "invalid flag 'persistent-handle': %s" [.err err])
  | .ok persistentHandle =>
  let s := s.call (.OpenTPM f.tpmPath)
  match w.openTPM with
  | some err => s.fail (Errorf "can't open TPM %q: %s" [.str f.tpmPath, .err err])
  | none =>
  deferClose "unable to close connection to TPM: %s" w <|
  let s := s.call (.EvictControl "" HandleOwner objectHandle persistentHandle)
  s.failIf w.evictControl fun err => Errorf "Unable to evict object: %s\n" [.err err]

/-- The function `main` of `evictcontrol.go`. -/
def Evictcontrol.main (f : Flags) (w : World) : Exit :=
  let s := Evictcontrol.evictControl f w []
  { trace := s.trace ++ s.errors.map (fun err => .Fprintf .Stderr "Error: %s\n" (.error err))
    code := if s.errors.length > 0 then 1 else 0 }

/-! ## tpm2-flushcontext -/

/-- The function `flushContext` of `flushcontext.go`. -/
def Flushcontext.flushContext (f : Flags) (w : World) (errors : List GoError) : St :=
  let s : St := ⟨errors, []⟩
  match Sscanf f.flushHandleFlag with
  | .error err => s.fail (Errorf "invalid flag 'flush-handle': %s" [.err err])
  | .ok flushHandle =>
  let s := s.call (.OpenTPM f.tpmPath)
  match w.openTPM with
  | some err => s.fail (Errorf "can't open TPM %q: %s" [.str f.tpmPath, .err err])
  | none =>
  deferClose "unable to close connection to TPM: %s" w <|
  let s := s.call (.FlushContext flushHandle)
  match w.flushContext with
  | some err => s.fail (Errorf "unable to flush object: %s" [.err err])
  | none => s

/-- The function `main` of `flushcontext.go`. -/
def Flushcontext.main (f : Flags) (w : World) : Exit :=
  let s := Flushcontext.flushContext f w []
  { trace := s.trace ++ s.errors.map (fun err => .Fprintf .Stderr "Error: %s\n" (.error err))
    code := if s.errors.length > 0 then 1 else 0 }

/-! ## tpm2-load -/

/-- The function `load` of `load.go`. -/
def Load.load (f : Flags) (w : World) (errors : List GoError) : St :=
  let s : St := ⟨errors, []⟩
  match Sscanf f.parentHandleFlag with
  | .error err => s.fail (Errorf "invalid flag 'parent-handle': %s" [.err err])
  | .ok parentHandle =>
  let s := s.call (.ReadFile f.privatePath)
  match (w.readFile 0).2 with
  | some err => s.fail (Errorf "Couldn't read from file %q: %s" [.str f.privatePath, .err err])
  | none =>
  let inPrivate := (w.readFile 0).1
  let s := s.call (.ReadFile f.publicPath)
  match (w.readFile 1).2 with
  | some err => s.fail (Errorf "Couldn't read from file %q: %s" [.str f.publicPath, .err err])
  | none =>
  let inPublic := (w.readFile 1).1
  let s := s.call (.OpenTPM f.tpmPath)
  match w.openTPM with
  | some err => s.fail (Errorf "Can't open TPM at %q: %s" [.str f.tpmPath, .err err])
  | none =>
  deferClose "Unable to close connection to TPM: %s" w <|
  let s := s.call (.Load parentHandle f.parentPassword inPublic inPrivate)
  match w.load.2 with
  | some err => s.fail (Errorf "Unable to load data: %s" [.err err])
  | none => s.call (.Fprintf .Stdout "%x\n" (.handle w.load.1))

/-- The function `main` of `load.go`. The loop is `for err := range errors`, so the loop
variable is the index of the element and it is the index that `Fprintf` receives. -/
def Load.main (f : Flags) (w : World) : Exit :=
  let s := Load.load f w []
  { trace := s.trace ++
      (List.range s.errors.length).map (fun err => .Fprintf .Stderr "%s\n" (.int err))
    code := if s.errors.length > 0 then 1 else 0 }

/-! ## tpm2-seal -/

/-- The function `seal` of `seal.go`. -/
def Seal.seal (f : Flags) (w : World) (errors : List GoError) : St :=
  let s : St := ⟨errors, []⟩
  if f.pcr < 0 ∨ f.pcr > 23 then
    s.fail (Errorf "invalid flag 'pcr': out of range" [])
  else
  match Sscanf f.parentHandleFlag with
  | .error err => s.fail (Errorf "invalid flag 'parent-handle': %s" [.err err])
  | .ok parentHandle =>
  match DecodeString f.data with
  | .error err => s.fail (Errorf "invalid flag 'data': %s" [.err err])
  | .ok dataBytes =>
  if dataBytes.length > 128 then
    s.fail (Errorf "invalid flag 'data': exceeds 128 bytes" [])
  else
  let s := s.call (.OpenTPM f.tpmPath)
  match w.openTPM with
  | some err => s.fail (Errorf "can't open TPM %q: %s" [.str f.tpmPath, .err err])
  | none =>
  deferClose "unable to close connection to TPM: %s" w <|
  let pcrSelection : PCRSelection := { Hash := .AlgSHA256, PCRs := [f.pcr] }
  let s := s.call startAuthSessionCall
  let sessHandle := w.startAuthSession.1
  let s := s.failIf w.startAuthSession.2 fun err =>
    Errorf "unable to start session: %s" [.err err]
  deferFlush "unable to flush session: %s" w sessHandle <|
  let s := s.call (.PolicyPCR sessHandle [] pcrSelection)
  match w.policyPCR with
  | some err => s.fail (Errorf "unable to bind PCRs to auth policy: %s" [.err err])
  | none =>
  let s := s.call (.PolicyPassword sessHandle)
  match w.policyPassword with
  | some err => s.fail (Errorf "unable to require password for auth policy: %s" [.err err])
  | none =>
  let s := s.call (.PolicyGetDigest sessHandle)
  match w.policyGetDigest.2 with
  | some err => s.fail (Errorf "unable to get policy digest: %s" [.err err])
  | none =>
  let objectAuthPolicy := w.policyGetDigest.1
  let s := s.call (.Seal parentHandle f.parentPassword f.objectPassword objectAuthPolicy dataBytes)
  match w.sealData.2.2 with
  | some err => s.fail (Errorf "unable to seal data: %v" [.err err])
  | none =>
  let outPrivate := w.sealData.1
  let outPublic := w.sealData.2.1
  let s := s.call (.WriteFile f.privatePath outPrivate 0o600)
  match w.writeFile 0 with
  | some err => s.fail (Errorf "couldn't write to file %q: %s" [.str f.privatePath, .err err])
  | none =>
  let s := s.call (.WriteFile f.publicPath outPublic 0o600)
  match w.writeFile 1 with
  | some err => s.fail (Errorf "couldn't write to file %q: %s" [.str f.publicPath, .err err])
  | none => s

/-- The function `main` of `seal.go`. -/
def Seal.main (f : Flags) (w : World) : Exit :=
  let s := Seal.seal f w []
  { trace := s.trace ++ s.errors.map (fun err => .Fprintf .Stderr "Error: %s\n" (.error err))
    code := if s.errors.length > 0 then 1 else 0 }

/-! ## tpm2-unseal -/

/-- The function `unseal` of `unseal.go`. Only the check of the object handle returns;
after every other failure the error is appended and the body goes on, with whatever the
failed call returned. The state is the one reached when every call returns: where the
library panics instead (a method called on the nil transport of a failed open, a PCR
index of 24 or more inside `tpm2.PolicyPCR`), the trace is that of the source up to the
panicking call. -/
def Unseal.unseal (f : Flags) (w : World) (errors : List GoError) : St :=
  let s : St := ⟨errors, []⟩
  let s :=
    if f.pcr < -1 ∨ f.pcr > 23 then s.fail (Errorf "Invalid flag 'pcr': out of range" [])
    else s
  match Sscanf f.objectHandleFlag with
  | .error err => s.fail (Errorf "invalid flag 'object-handle': %s" [.err err])
  | .ok objectHandle =>
  let s := s.call (.OpenTPM f.tpmPath)
  let s := s.failIf w.openTPM fun err =>
    Errorf "Can't open TPM %q: %s" [.str f.tpmPath, .err err]
  deferClose "Unable to close connection to TPM: %s" w <|
  let pcrSelection : PCRSelection :=
    if f.pcr ≠ -1 then { Hash := .AlgSHA256, PCRs := [f.pcr] } else {}
  let s := s.call startAuthSessionCall
  let sessHandle := w.startAuthSession.1
  let s := s.failIf w.startAuthSession.2 fun err =>
    Errorf "Unable to start session: %s" [.err err]
  deferFlush "Unable to flush session: %s" w sessHandle <|
  let s := s.call (.PolicyPCR sessHandle [] pcrSelection)
  let s := s.failIf w.policyPCR fun err =>
    Errorf "Unable to bind PCRs to auth policy: %s" [.err err]
  let s := s.call (.PolicyPassword sessHandle)
  let s := s.failIf w.policyPassword fun err =>
    Errorf "Unable to require password for auth policy: %s" [.err err]
  let s := s.call (.UnsealWithSession sessHandle objectHandle f.objectPassword)
  let outPrivate := w.unsealWithSession.1
  let s := s.failIf w.unsealWithSession.2 fun err =>
    Errorf "Unable to unseal data: %s" [.err err]
  let s := s.call (.WriteFile f.privatePath outPrivate 0o600)
  s.failIf (w.writeFile 0) fun err =>
    Errorf "Couldn't write to file %q: %s" [.str f.privatePath, .err err]

/-- The function `main` of `unseal.go`. The loop is `for err := range errors`, so the
loop variable is the index of the element and it is the index that `Fprintf` receives. -/
def Unseal.main (f : Flags) (w : World) : Exit :=
  let s := Unseal.unseal f w []
  { trace := s.trace ++
      (List.range s.errors.length).map (fun err => .Fprintf .Stderr "%s\n" (.int err))
    code := if s.errors.length > 0 then 1 else 0 }

/-! ## Definitions used to state the properties -/

/-- The formats of the errors `seal` appends for a malformed flag. -/
def Seal.inputErrorFormats : List String :=
  ["invalid flag 'pcr': out of range", "invalid flag 'parent-handle': %s",
   "invalid flag 'data': %s", "invalid flag 'data': exceeds 128 bytes"]

/-- The number a run of hexadecimal digits denotes, read after the accumulator `n`. -/
def hexValue (cs : List Char) (n : Nat) : Nat :=
  cs.foldl (fun acc c => acc * 16 + (digitVal c).getD 0) n

/-- A character that `fmtInteger` writes for a base-16 digit. -/
def LowerHex (c : Char) : Prop := ∃ d, d < 16 ∧ c = ldigits.getD d '0'

/-- Whether a call opens the policy session or applies an assertion to it. -/
def Call.isPolicyAssertion : Call → Bool
  | .StartAuthSession .. => true
  | .PolicyPCR .. => true
  | .PolicyPassword _ => true
  | _ => false

/-- The calls of a trace that open the policy session or apply an assertion to it, in
the order they were made. -/
def policyAssertions (tr : List Call) : List Call := tr.filter Call.isPolicyAssertion

/-! ## Concrete runs -/

/-- Flags for `seal` that leave `pcr` at its default, -1. -/
def Examples.sealDefaultPcr : Flags :=
  { parentHandleFlag := "80000001", data := "00ff", privatePath := "priv.bin",
    publicPath := "pub.bin" }

/-- Flags for `seal` with a PCR, a parent handle and two bytes of data. -/
def Examples.sealFlags : Flags :=
  { pcr := 7, parentHandleFlag := "80000001", data := "00ff", privatePath := "priv.bin",
    publicPath := "pub.bin" }

/-- Flags for `seal` whose data decodes to exactly 128 bytes. -/
def Examples.sealFlags128 : Flags :=
  { pcr := 7, parentHandleFlag := "80000001", data := String.mk (List.replicate 256 '0'),
    privatePath := "priv.bin", publicPath := "pub.bin" }

/-- Flags for `unseal` with a PCR and an object handle. -/
def Examples.unsealFlags : Flags :=
  { pcr := 7, objectHandleFlag := "80000002", privatePath := "plain.bin" }

/-- Flags for `unseal` with a PCR index below -1. -/
def Examples.unsealFlagsPcrBelow : Flags :=
  { pcr := -2, objectHandleFlag := "80000002", privatePath := "plain.bin" }

/-- Flags for `load` whose parent handle is not hexadecimal. -/
def Examples.loadFlagsBadHandle : Flags :=
  { parentHandleFlag := "zz", privatePath := "priv.bin", publicPath := "pub.bin" }

/-- Flags for the four single-command tools, every handle flag well-formed. -/
def Examples.lifecycleFlags : Flags :=
  { parentHandleFlag := "80000001", objectHandleFlag := "80000002",
    persistentHandleFlag := "81000001", flushHandleFlag := "80000002",
    privatePath := "priv.bin", publicPath := "pub.bin" }

/-- A world in which every call succeeds and the session handle is 0x03000000. -/
def Examples.worldOk : World :=
  { startAuthSession := (0x03000000, none) }

/-- A world in which the device rejects `UnsealWithSession` and all else succeeds. -/
def Examples.worldUnsealRejected : World :=
  { startAuthSession := (0x03000000, none)
    unsealWithSession := ([], some (.os "policy check failed")) }

/-- A world in which `StartAuthSession` fails, returning the zero handle, and the
device then rejects that handle. -/
def Examples.worldNoSession : World :=
  { startAuthSession := (0, some (.os "out of session slots"))
    policyPCR := some (.os "bad session handle")
    policyPassword := some (.os "bad session handle")
    policyGetDigest := ([], some (.os "bad session handle"))
    unsealWithSession := ([], some (.os "bad session handle"))
    flushContext := some (.os "bad session handle") }

/-- A world in which the transport opens, the primary command of each single-command
tool fails and the close fails too. -/
def Examples.worldPrimaryAndCloseFail : World :=
  { close := some (.os "close failed")
    createPrimary := (0, some (.os "command rejected"))
    evictControl := some (.os "command rejected")
    flushContext := some (.os "command rejected")
    load := (0, some (.os "command rejected")) }

end GoTpm

/-! # Theorems -/

namespace GoTpm

/-! ## The deferred closures -/

theorem St.call_trace (s : St) (c : Call) : (s.call c).trace = s.trace ++ [c] := rfl

theorem St.fail_trace (s : St) (e : GoError) : (s.fail e).trace = s.trace := rfl

theorem St.failIf_trace (s : St) (err : Option LibError) (mk : LibError → GoError) :
    (s.failIf err mk).trace = s.trace := by
  cases err <;> rfl

theorem deferClose_trace (fmt : String) (w : World) (s : St) :
    (deferClose fmt w s).trace = s.trace ++ [.Close] := by
  unfold deferClose
  rw [St.failIf_trace, St.call_trace]

theorem deferFlush_trace (fmt : String) (w : World) (h : Nat) (s : St) :
    (deferFlush fmt w h s).trace = s.trace ++ [.FlushContext h] := by
  unfold deferFlush
  rw [St.failIf_trace, St.call_trace]

/-! ## C1: the default `pcr` of seal -/

/-- C1 (the code departs from the claim): with `pcr` left at -1, the value the flag text
documents as "ignored", and every other flag valid, `seal` appends the error
"invalid flag 'pcr': out of range" and returns without making any call, whatever the
device would answer and whatever the error list held. -/
theorem seal_default_pcr_rejected (w : World) (errors : List GoError) :
    Seal.seal Examples.sealDefaultPcr w errors =
      ⟨errors ++ [Errorf "invalid flag 'pcr': out of range" []], []⟩ := by
  rfl

/-! ## C2: unseal after a rejected `UnsealWithSession` -/

/-- C2 (the code departs from the claim): when the device rejects `UnsealWithSession`,
`unseal` appends the error and still calls `WriteFile` on the private path, with the
empty data the failed call returned. -/
theorem unseal_writes_after_rejected_unseal :
    Unseal.unseal Examples.unsealFlags Examples.worldUnsealRejected [] =
      ⟨[Errorf "Unable to unseal data: %s" [.err (.os "policy check failed")]],
       [.OpenTPM "/dev/tpm0", startAuthSessionCall,
        .PolicyPCR 0x03000000 [] { Hash := .AlgSHA256, PCRs := [7] },
        .PolicyPassword 0x03000000,
        .UnsealWithSession 0x03000000 0x80000002 "",
        .WriteFile "plain.bin" [] 0o600,
        .FlushContext 0x03000000, .Close]⟩ := by
  decide

/-! ## C3: the size boundary of the data flag -/

/-- C3: for `seal` with `pcr` in [0,23] and a parent handle that scans, when the data
flag decodes to at most 128 bytes the first call is `OpenTPM` and every error in the
resulting list was there before or is not one of the malformed-flag errors; when it
decodes to 129 bytes or more, exactly the error "invalid flag 'data': exceeds 128 bytes"
is appended and no call at all is made. -/
theorem seal_data_size_boundary (f : Flags) (w : World) (errors : List GoError)
    (parentHandle : Nat) (dataBytes : List Nat)
    (hpcr : 0 ≤ f.pcr ∧ f.pcr ≤ 23)
    (hparent : Sscanf f.parentHandleFlag = .ok parentHandle)
    (hdata : DecodeString f.data = .ok dataBytes) :
    (dataBytes.length ≤ 128 →
      (Seal.seal f w errors).trace.head? = some (.OpenTPM f.tpmPath) ∧
      ∀ e ∈ (Seal.seal f w errors).errors, e ∈ errors ∨ e.format ∉ Seal.inputErrorFormats) ∧
    (129 ≤ dataBytes.length →
      Seal.seal f w errors =
        ⟨errors ++ [Errorf "invalid flag 'data': exceeds 128 bytes" []], []⟩) := by
  have hp : ¬ (f.pcr < 0 ∨ f.pcr > 23) := by omega
  constructor
  · intro hlen
    have hl : ¬ dataBytes.length > 128 := by omega
    unfold Seal.seal
    simp only [hp, hparent, hdata, hl, if_false]
    constructor
    · split
      · simp [St.call, St.fail]
      · rw [deferClose_trace, deferFlush_trace]
        repeat' split
        all_goals simp [St.call, St.fail, St.failIf_trace]
    · unfold deferClose deferFlush St.failIf
      repeat' split
      all_goals
        simp only [St.call, St.fail, Errorf, Seal.inputErrorFormats, List.forall_mem_append,
          List.forall_mem_singleton]
        simp +contextual
  · intro hlen
    have hl : dataBytes.length > 128 := by omega
    unfold Seal.seal
    simp only [hp, hparent, hdata, hl, if_true, if_false]
    rfl

set_option maxRecDepth 100000 in
/-- C3 at a data flag of exactly 128 bytes. -/
theorem seal_data_size_boundary_witness :
    (Seal.seal Examples.sealFlags128 Examples.worldOk []).trace.head? =
        some (.OpenTPM "/dev/tpm0") ∧
      ∀ e ∈ (Seal.seal Examples.sealFlags128 Examples.worldOk []).errors,
        e ∈ [] ∨ e.format ∉ Seal.inputErrorFormats :=
  (seal_data_size_boundary Examples.sealFlags128 Examples.worldOk [] 0x80000001
    (List.replicate 128 0) (by decide) (by decide) (by decide)).1 (by decide)

/-! ## C4: what the mains print -/

/-- C4 (the code departs from the claim): `load` given a parent handle that is not
hexadecimal accumulates one error, and `main` of `load.go` passes `Fprintf` the index 0
of that error, not the error: its description does not reach the error stream. The
`main` of `unseal.go` has the same loop: after a rejected `UnsealWithSession` the one
line written to the error stream is again the index 0. Both exit with code 1. -/
theorem load_unseal_main_print_index :
    (Load.load Examples.loadFlagsBadHandle Examples.worldOk []).errors =
        [Errorf "invalid flag 'parent-handle': %s" [.err .scanExpectedInteger]] ∧
      Load.main Examples.loadFlagsBadHandle Examples.worldOk =
        ⟨[.Fprintf .Stderr "%s\n" (.int 0)], 1⟩ ∧
      (Unseal.main Examples.unsealFlags Examples.worldUnsealRejected).trace.filter
          (fun c => c matches .Fprintf ..) = [.Fprintf .Stderr "%s\n" (.int 0)] ∧
      (Unseal.main Examples.unsealFlags Examples.worldUnsealRejected).code = 1 := by
  decide

/-! ## C5: seal after a failed `StartAuthSession` -/

/-- C5 (the code departs from the claim): when `StartAuthSession` fails, `seal` appends
the error and goes on: `PolicyPCR` is issued on the handle the failed call returned, and
only its failure ends the body. Two step errors are recorded before the flush. -/
theorem seal_continues_after_failed_session :
    Seal.seal Examples.sealFlags Examples.worldNoSession [] =
      ⟨[Errorf "unable to start session: %s" [.err (.os "out of session slots")],
        Errorf "unable to bind PCRs to auth policy: %s" [.err (.os "bad session handle")],
        Errorf "unable to flush session: %s" [.err (.os "bad session handle")]],
       [.OpenTPM "/dev/tpm0", startAuthSessionCall,
        .PolicyPCR 0 [] { Hash := .AlgSHA256, PCRs := [7] },
        .FlushContext 0, .Close]⟩ := by
  decide

/-! ## C6: the session is flushed once, before the close -/

theorem seal_shape (f : Flags) (w : World) (errors : List GoError)
    (hcall : startAuthSessionCall ∈ (Seal.seal f w errors).trace) :
    ∃ body : St, Seal.seal f w errors =
        deferClose "unable to close connection to TPM: %s" w
          (deferFlush "unable to flush session: %s" w w.startAuthSession.1 body) ∧
      ∀ c ∈ body.trace, c ≠ .Close ∧ ∀ k, c ≠ .FlushContext k := by
  unfold Seal.seal at hcall ⊢
  split
  · simp [*, St.fail] at hcall
  · split
    · simp [*, St.fail] at hcall
    · split
      · simp [*, St.fail] at hcall
      · split
        · simp [*, St.fail] at hcall
        · split
          · simp [*, St.fail, St.call, startAuthSessionCall] at hcall
          · refine ⟨_, rfl, ?_⟩
            clear hcall
            repeat' split
            all_goals simp [St.call, St.fail, St.failIf_trace, startAuthSessionCall]

theorem unseal_shape (f : Flags) (w : World) (errors : List GoError)
    (hcall : startAuthSessionCall ∈ (Unseal.unseal f w errors).trace) :
    ∃ body : St, Unseal.unseal f w errors =
        deferClose "Unable to close connection to TPM: %s" w
          (deferFlush "Unable to flush session: %s" w w.startAuthSession.1 body) ∧
      ∀ c ∈ body.trace, c ≠ .Close ∧ ∀ k, c ≠ .FlushContext k := by
  unfold Unseal.unseal at hcall ⊢
  cases hs : Sscanf f.objectHandleFlag with
  | error e =>
    simp only [hs] at hcall
    split at hcall <;> simp [St.fail] at hcall
  | ok objectHandle =>
    simp only [hs]
    refine ⟨_, rfl, ?_⟩
    clear hcall
    simp only [St.call_trace, St.failIf_trace, List.forall_mem_append,
      List.forall_mem_singleton, startAuthSessionCall]
    split <;> simp [St.fail_trace]

/-- C6: in every run of `seal` and of `unseal` that calls `StartAuthSession` and gets
the handle `h` with no error, the trace ends with `FlushContext h` followed by `Close`,
and no call before those two is a `FlushContext` or a `Close`: the session is flushed
exactly once, with `h`, and before the transport is closed, whatever the later steps
return. -/
theorem session_flushed_once_before_close (f : Flags) (w : World) (errors : List GoError)
    (h : Nat) (hok : w.startAuthSession = (h, none)) :
    (startAuthSessionCall ∈ (Seal.seal f w errors).trace →
      ∃ pre, (Seal.seal f w errors).trace = pre ++ [.FlushContext h, .Close] ∧
        ∀ c ∈ pre, c ≠ .Close ∧ ∀ k, c ≠ .FlushContext k) ∧
    (startAuthSessionCall ∈ (Unseal.unseal f w errors).trace →
      ∃ pre, (Unseal.unseal f w errors).trace = pre ++ [.FlushContext h, .Close] ∧
        ∀ c ∈ pre, c ≠ .Close ∧ ∀ k, c ≠ .FlushContext k) := by
  have hh : w.startAuthSession.1 = h := by rw [hok]
  constructor
  · intro hcall
    obtain ⟨body, hbody, hpre⟩ := seal_shape f w errors hcall
    refine ⟨body.trace, ?_, hpre⟩
    rw [hbody, deferClose_trace, deferFlush_trace, hh]
    simp
  · intro hcall
    obtain ⟨body, hbody, hpre⟩ := unseal_shape f w errors hcall
    refine ⟨body.trace, ?_, hpre⟩
    rw [hbody, deferClose_trace, deferFlush_trace, hh]
    simp

/-- C6 at a run of `seal` in which the device rejects `PolicyPCR`. -/
theorem session_flushed_once_before_close_witness :
    ∃ pre, (Seal.seal Examples.sealFlags
          { startAuthSession := (0x03000000, none), policyPCR := some (.os "rejected") }
          []).trace = pre ++ [.FlushContext 0x03000000, .Close] ∧
      ∀ c ∈ pre, c ≠ .Close ∧ ∀ k, c ≠ .FlushContext k :=
  (session_flushed_once_before_close Examples.sealFlags
    { startAuthSession := (0x03000000, none), policyPCR := some (.os "rejected") }
    [] 0x03000000 rfl).1 (by decide)

/-! ## C7: unseal with a PCR index out of range -/

/-- C7 (the code departs from the claim): `unseal` with `pcr = -2`, on a device where
every call succeeds, appends the error "Invalid flag 'pcr': out of range" and does not
return: it opens the transport, starts a session, issues `PolicyPCR` with the selection
[-2], `PolicyPassword` and `UnsealWithSession`, and writes the private path. -/
theorem unseal_continues_after_bad_pcr :
    Unseal.unseal Examples.unsealFlagsPcrBelow Examples.worldOk [] =
      ⟨[Errorf "Invalid flag 'pcr': out of range" []],
       [.OpenTPM "/dev/tpm0", startAuthSessionCall,
        .PolicyPCR 0x03000000 [] { Hash := .AlgSHA256, PCRs := [-2] },
        .PolicyPassword 0x03000000,
        .UnsealWithSession 0x03000000 0x80000002 "",
        .WriteFile "plain.bin" [] 0o600,
        .FlushContext 0x03000000, .Close]⟩ := by
  decide

/-! ## C8: a failed command and a failed close are both reported -/

/-- C8: for `createsrk`, `evictControl`, `flushContext` and `load` started on the empty
error list, when the steps before the transport succeed, `OpenTPM` succeeds, the primary
command fails with `e1` and `Close` fails with `e2`, the resulting list holds exactly two
errors, the one built from `e1` first and the one built from `e2` second, and `main`
exits with code 1. -/
theorem primary_and_close_failure_both_reported :
    (∀ (f : Flags) (w : World) (e1 e2 : LibError),
      w.openTPM = none → w.createPrimary.2 = some e1 → w.close = some e2 →
      (Createsrk.createsrk f w []).errors =
          [Errorf "can't create primary key: %s" [.err e1],
           Errorf "unable to close connection to TPM: %s" [.err e2]] ∧
        (Createsrk.main f w).code = 1) ∧
    (∀ (f : Flags) (w : World) (e1 e2 : LibError) (objectHandle persistentHandle : Nat),
      Sscanf f.objectHandleFlag = .ok objectHandle →
      Sscanf f.persistentHandleFlag = .ok persistentHandle →
      w.openTPM = none → w.evictControl = some e1 → w.close = some e2 →
      (Evictcontrol.evictControl f w []).errors =
          [Errorf "Unable to evict object: %s\n" [.err e1],
           Errorf "unable to close connection to TPM: %s" [.err e2]] ∧
        (Evictcontrol.main f w).code = 1) ∧
    (∀ (f : Flags) (w : World) (e1 e2 : LibError) (flushHandle : Nat),
      Sscanf f.flushHandleFlag = .ok flushHandle →
      w.openTPM = none → w.flushContext = some e1 → w.close = some e2 →
      (Flushcontext.flushContext f w []).errors =
          [Errorf "unable to flush object: %s" [.err e1],
           Errorf "unable to close connection to TPM: %s" [.err e2]] ∧
        (Flushcontext.main f w).code = 1) ∧
    (∀ (f : Flags) (w : World) (e1 e2 : LibError) (parentHandle : Nat),
      Sscanf f.parentHandleFlag = .ok parentHandle →
      (w.readFile 0).2 = none → (w.readFile 1).2 = none →
      w.openTPM = none → w.load.2 = some e1 → w.close = some e2 →
      (Load.load f w []).errors =
          [Errorf "Unable to load data: %s" [.err e1],
           Errorf "Unable to close connection to TPM: %s" [.err e2]] ∧
        (Load.main f w).code = 1) := by
  refine ⟨?_, ?_, ?_, ?_⟩
  · intro f w e1 e2 ho hp hc
    have he : (Createsrk.createsrk f w []).errors =
        [Errorf "can't create primary key: %s" [.err e1],
         Errorf "unable to close connection to TPM: %s" [.err e2]] := by
      simp [Createsrk.createsrk, deferClose, St.failIf, St.call, St.fail, ho, hp, hc]
    exact ⟨he, by simp [Createsrk.main, he]⟩
  · intro f w e1 e2 objectHandle persistentHandle h1 h2 ho hp hc
    have he : (Evictcontrol.evictControl f w []).errors =
        [Errorf "Unable to evict object: %s\n" [.err e1],
         Errorf "unable to close connection to TPM: %s" [.err e2]] := by
      simp [Evictcontrol.evictControl, deferClose, St.failIf, St.call, St.fail, h1, h2, ho, hp,
        hc]
    exact ⟨he, by simp [Evictcontrol.main, he]⟩
  · intro f w e1 e2 flushHandle h1 ho hp hc
    have he : (Flushcontext.flushContext f w []).errors =
        [Errorf "unable to flush object: %s" [.err e1],
         Errorf "unable to close connection to TPM: %s" [.err e2]] := by
      simp [Flushcontext.flushContext, deferClose, St.failIf, St.call, St.fail, h1, ho, hp, hc]
    exact ⟨he, by simp [Flushcontext.main, he]⟩
  · intro f w e1 e2 parentHandle h1 hr0 hr1 ho hp hc
    have he : (Load.load f w []).errors =
        [Errorf "Unable to load data: %s" [.err e1],
         Errorf "Unable to close connection to TPM: %s" [.err e2]] := by
      simp [Load.load, deferClose, St.failIf, St.call, St.fail, h1, hr0, hr1, ho, hp, hc]
    exact ⟨he, by simp [Load.main, he]⟩

/-- C8 at a run of `load` in which the device rejects the command and the close fails. -/
theorem primary_and_close_failure_both_reported_witness :
    (Load.load Examples.lifecycleFlags Examples.worldPrimaryAndCloseFail []).errors =
        [Errorf "Unable to load data: %s" [.err (.os "command rejected")],
         Errorf "Unable to close connection to TPM: %s" [.err (.os "close failed")]] ∧
      (Load.main Examples.lifecycleFlags Examples.worldPrimaryAndCloseFail).code = 1 :=
  primary_and_close_failure_both_reported.2.2.2 Examples.lifecycleFlags
    Examples.worldPrimaryAndCloseFail (.os "command rejected") (.os "close failed") 0x80000001
    (by decide) rfl rfl rfl rfl rfl

/-! ## C9: unseal after a failed `OpenTPM` -/

theorem St.head_errors_call (s : St) (c : Call) (e : GoError)
    (h : s.errors.head? = some e) : (s.call c).errors.head? = some e := h

theorem St.head_errors_failIf (s : St) (err : Option LibError) (mk : LibError → GoError)
    (e : GoError) (h : s.errors.head? = some e) :
    (s.failIf err mk).errors.head? = some e := by
  cases err with
  | none => exact h
  | some x =>
    cases hs : s.errors with
    | nil => rw [hs] at h; simp at h
    | cons a l => rw [hs] at h; simpa [St.failIf, St.fail, hs] using h

theorem head_errors_deferClose (fmt : String) (w : World) (s : St) (e : GoError)
    (h : s.errors.head? = some e) : (deferClose fmt w s).errors.head? = some e :=
  St.head_errors_failIf _ _ _ e (St.head_errors_call s _ e h)

theorem head_errors_deferFlush (fmt : String) (w : World) (k : Nat) (s : St) (e : GoError)
    (h : s.errors.head? = some e) : (deferFlush fmt w k s).errors.head? = some e :=
  St.head_errors_failIf _ _ _ e (St.head_errors_call s _ e h)

/-- C9 (the code departs from the claim): when `OpenTPM` fails, whatever the later calls
would answer, `unseal` records the error "Can't open TPM" first and does not return
there: the call it makes next is `StartAuthSession`, with the transport value the failed
open returned. -/
theorem unseal_continues_after_failed_open (w : World) :
    (Unseal.unseal Examples.unsealFlags
        { w with openTPM := some (.os "no such file or directory") } []).trace.take 2 =
      [.OpenTPM "/dev/tpm0",
       .StartAuthSession HandleNull HandleNull (List.replicate 16 0) [] .SessionPolicy
         .AlgNull .AlgSHA256] ∧
    (Unseal.unseal Examples.unsealFlags
        { w with openTPM := some (.os "no such file or directory") } []).errors.head? =
      some (Errorf "Can't open TPM %q: %s"
        [.str "/dev/tpm0", .err (.os "no such file or directory")]) := by
  have hs : Sscanf Examples.unsealFlags.objectHandleFlag = .ok 0x80000002 := by decide
  have hp : ¬ (Examples.unsealFlags.pcr < -1 ∨ Examples.unsealFlags.pcr > 23) := by decide
  unfold Unseal.unseal
  simp only [hs, hp, if_false]
  constructor
  · rw [deferClose_trace, deferFlush_trace]
    simp [St.call_trace, St.failIf_trace, startAuthSessionCall, Examples.unsealFlags]
  · apply head_errors_deferClose
    apply head_errors_deferFlush
    apply St.head_errors_failIf
    apply St.head_errors_call
    apply St.head_errors_failIf
    apply St.head_errors_call
    apply St.head_errors_failIf
    apply St.head_errors_call
    apply St.head_errors_failIf
    apply St.head_errors_call
    apply St.head_errors_failIf
    apply St.head_errors_call
    simp [St.failIf, St.fail, St.call, Examples.unsealFlags]

/-! ## C10: the text of a handle scans back to the handle -/

theorem ldigits_getD_spec : ∀ d, d < 16 →
    digitVal (ldigits.getD d '0') = some d ∧ ldigits.getD d '0' ∈ hexadecimalDigits ∧
      isSpace (ldigits.getD d '0') = false ∧ ldigits.getD d '0' ≠ '\n' ∧
      ldigits.getD d '0' ≠ '\r' := by
  decide

theorem LowerHex.digitVal {c : Char} (hc : LowerHex c) : ∃ d, d < 16 ∧ digitVal c = some d := by
  obtain ⟨d, hd, rfl⟩ := hc
  exact ⟨d, hd, (ldigits_getD_spec d hd).1⟩

theorem LowerHex.mem_digits {c : Char} (hc : LowerHex c) : c ∈ hexadecimalDigits := by
  obtain ⟨d, hd, rfl⟩ := hc
  exact (ldigits_getD_spec d hd).2.1

theorem LowerHex.skipSpace {c : Char} (hc : LowerHex c) (rest : List Char) :
    SkipSpace (c :: rest) = .ok (c :: rest) := by
  obtain ⟨d, hd, rfl⟩ := hc
  obtain ⟨-, -, hsp, hnl, hcr⟩ := ldigits_getD_spec d hd
  generalize ldigits.getD d '0' = r at hsp hnl hcr
  simp [SkipSpace, hsp, hnl, hcr]

theorem fmtIntegerLoop_lowerHex (fuel : Nat) :
    ∀ (u : Nat) (buf : List Char), u < 16 ^ (fuel + 1) → (∀ c ∈ buf, LowerHex c) →
      ∀ c ∈ fmtIntegerLoop fuel u buf, LowerHex c := by
  induction fuel with
  | zero =>
    intro u buf hu hbuf c hc
    have hu16 : u < 16 := by simpa using hu
    simp only [fmtIntegerLoop, List.mem_cons] at hc
    rcases hc with rfl | hc
    · exact ⟨u, hu16, rfl⟩
    · exact hbuf c hc
  | succ fuel ih =>
    intro u buf hu hbuf c hc
    unfold fmtIntegerLoop at hc
    split at hc
    · have hdiv : u / 16 < 16 ^ (fuel + 1) := by
        rw [Nat.div_lt_iff_lt_mul (by decide)]
        rw [pow_succ] at hu
        exact hu
      refine ih (u / 16) _ hdiv ?_ c hc
      intro x hx
      rcases List.mem_cons.mp hx with rfl | hx
      · exact ⟨u % 16, Nat.mod_lt _ (by decide), rfl⟩
      · exact hbuf x hx
    · rcases List.mem_cons.mp hc with rfl | hc
      · exact ⟨u, by omega, rfl⟩
      · exact hbuf c hc

theorem fmtIntegerLoop_ne_nil (fuel : Nat) :
    ∀ (u : Nat) (buf : List Char), ∃ c rest, fmtIntegerLoop fuel u buf = c :: rest := by
  induction fuel with
  | zero => intro u buf; exact ⟨_, _, rfl⟩
  | succ fuel ih =>
    intro u buf
    unfold fmtIntegerLoop
    split
    · exact ih _ _
    · exact ⟨_, _, rfl⟩

theorem hexValue_cons (c : Char) (cs : List Char) (n : Nat) :
    hexValue (c :: cs) n = hexValue cs (n * 16 + (digitVal c).getD 0) := rfl

theorem le_hexValue (cs : List Char) : ∀ n, n ≤ hexValue cs n := by
  induction cs with
  | nil => intro n; exact Nat.le_refl n
  | cons c cs ih =>
    intro n
    rw [hexValue_cons]
    have := ih (n * 16 + (digitVal c).getD 0)
    omega

theorem hexValue_fmtIntegerLoop (fuel : Nat) :
    ∀ (u : Nat) (buf : List Char), u < 16 ^ (fuel + 1) →
      hexValue (fmtIntegerLoop fuel u buf) 0 = hexValue buf u := by
  induction fuel with
  | zero =>
    intro u buf hu
    have hu16 : u < 16 := by simpa using hu
    simp only [fmtIntegerLoop, hexValue_cons]
    rw [(ldigits_getD_spec u hu16).1]
    simp
  | succ fuel ih =>
    intro u buf hu
    unfold fmtIntegerLoop
    split
    · have hdiv : u / 16 < 16 ^ (fuel + 1) := by
        rw [Nat.div_lt_iff_lt_mul (by decide)]
        rw [pow_succ] at hu
        exact hu
      rw [ih (u / 16) _ hdiv, hexValue_cons,
        (ldigits_getD_spec (u % 16) (Nat.mod_lt _ (by decide))).1]
      simp only [Option.getD_some]
      rw [Nat.div_add_mod']
    · have hu16 : u < 16 := by omega
      rw [hexValue_cons, (ldigits_getD_spec u hu16).1]
      simp

theorem parseUintLoop_lowerHex (tok : List Char) (cs : List Char) :
    ∀ n, (∀ c ∈ cs, LowerHex c) → hexValue cs n < 2 ^ 64 →
      parseUintLoop tok cs n = .ok (hexValue cs n) := by
  induction cs with
  | nil => intro n _ _; rfl
  | cons c cs ih =>
    intro n hcs hlt
    obtain ⟨d, hd, hdv⟩ := (hcs c (List.mem_cons_self c cs)).digitVal
    rw [hexValue_cons, hdv] at hlt ⊢
    simp only [Option.getD_some] at hlt ⊢
    have hmono := le_hexValue cs (n * 16 + d)
    have hn : n * 16 + d < 2 ^ 64 := Nat.lt_of_le_of_lt hmono hlt
    have hmod : (n * 16 % 2 ^ 64 + d) % 2 ^ 64 = n * 16 + d := by omega
    have hmod2 : n * 16 % 2 ^ 64 = n * 16 := by omega
    have hmod3 : (n * 16 + d) % 2 ^ 64 = n * 16 + d := by omega
    unfold parseUintLoop
    simp only [hdv]
    rw [if_neg (by omega), if_neg (by omega)]
    simp only [hmod, hmod2, hmod3]
    rw [if_neg (by omega)]
    exact ih _ (fun x hx => hcs x (List.mem_cons_of_mem c hx)) hlt

theorem acceptAll_all (digits : List Char) (cs : List Char) (h : ∀ c ∈ cs, c ∈ digits) :
    acceptAll digits cs = (cs, []) := by
  induction cs with
  | nil => rfl
  | cons c cs ih =>
    unfold acceptAll
    rw [if_pos (h c (List.mem_cons_self c cs)),
      ih (fun x hx => h x (List.mem_cons_of_mem c hx))]

theorem Sscanf_lowerHex (cs : List Char) (hne : cs ≠ []) (hcs : ∀ c ∈ cs, LowerHex c)
    (hlt : hexValue cs 0 < 2 ^ 32) : Sscanf (String.mk cs) = .ok (hexValue cs 0) := by
  cases cs with
  | nil => exact absurd rfl hne
  | cons c rest =>
    have hc : LowerHex c := hcs c (List.mem_cons_self c rest)
    have hacc : acceptAll hexadecimalDigits rest = (rest, []) :=
      acceptAll_all _ _ (fun x hx => (hcs x (List.mem_cons_of_mem c hx)).mem_digits)
    have hparse : parseUintLoop (c :: rest) (c :: rest) 0 = .ok (hexValue (c :: rest) 0) :=
      parseUintLoop_lowerHex _ _ 0 hcs (by omega)
    simp only [Sscanf, String.toList, hc.skipSpace, scanUint, scanNumber, hc.mem_digits, if_true,
      hacc, ParseUint, hparse]
    rw [if_neg]
    omega

/-- C10: for every handle `h` below 2^32, `ParseHex32Flag` applied to the text the verb
`%x` prints for `h` (lower-case hexadecimal, no `0x`) returns `h` and no error. -/
theorem ParseHex32Flag_fmtHex (flagName : String) (h : Nat) (hh : h < 2 ^ 32) :
    ParseHex32Flag flagName (fmtHex h) = (h, none) := by
  have hval : hexValue (fmtIntegerLoop 16 h []) 0 = h := by
    rw [hexValue_fmtIntegerLoop 16 h [] (by omega)]
    rfl
  obtain ⟨c, rest, hcr⟩ := fmtIntegerLoop_ne_nil 16 h []
  have hne : fmtIntegerLoop 16 h [] ≠ [] := by rw [hcr]; exact List.cons_ne_nil c rest
  have hscan := Sscanf_lowerHex (fmtIntegerLoop 16 h []) hne
    (fmtIntegerLoop_lowerHex 16 h [] (by omega) (by simp)) (by omega)
  have hstr : fmtHex h ≠ "" := by
    intro heq
    have := congrArg String.data heq
    exact hne this
  unfold ParseHex32Flag
  rw [if_neg hstr]
  unfold fmtHex
  rw [hscan, hval]

/-- C10 at the handle 0x80000001. -/
theorem ParseHex32Flag_fmtHex_witness :
    (0x80000001 : Nat) < 2 ^ 32 ∧
      ParseHex32Flag "parent-handle" (fmtHex 0x80000001) = (0x80000001, none) :=
  ⟨by decide, ParseHex32Flag_fmtHex "parent-handle" 0x80000001 (by decide)⟩

/-! ## C11: unseal replays the policy of seal -/

theorem seal_trace_take (f : Flags) (w : World) (errors : List GoError)
    (h parentHandle : Nat) (dataBytes : List Nat)
    (hpcr : 0 ≤ f.pcr ∧ f.pcr ≤ 23)
    (hparent : Sscanf f.parentHandleFlag = .ok parentHandle)
    (hdata : DecodeString f.data = .ok dataBytes) (hlen : dataBytes.length ≤ 128)
    (hopen : w.openTPM = none) (hstart : w.startAuthSession = (h, none))
    (hpolicyPCR : w.policyPCR = none) (hpolicyPassword : w.policyPassword = none)
    (hdigest : w.policyGetDigest.2 = none) (hseal : w.sealData.2.2 = none) :
    (Seal.seal f w errors).trace.take 6 =
        [.OpenTPM f.tpmPath,
         .StartAuthSession HandleNull HandleNull (List.replicate 16 0) [] .SessionPolicy
           .AlgNull .AlgSHA256,
         .PolicyPCR h [] { Hash := .AlgSHA256, PCRs := [f.pcr] },
         .PolicyPassword h,
         .PolicyGetDigest h,
         .Seal parentHandle f.parentPassword f.objectPassword w.policyGetDigest.1 dataBytes] ∧
      policyAssertions (Seal.seal f w errors).trace =
        [.StartAuthSession HandleNull HandleNull (List.replicate 16 0) [] .SessionPolicy
           .AlgNull .AlgSHA256,
         .PolicyPCR h [] { Hash := .AlgSHA256, PCRs := [f.pcr] },
         .PolicyPassword h] := by
  have hp : ¬ (f.pcr < 0 ∨ f.pcr > 23) := by omega
  have hl : ¬ dataBytes.length > 128 := by omega
  unfold Seal.seal
  simp only [hp, hparent, hdata, hl, if_false, hopen, hstart, hpolicyPCR, hpolicyPassword,
    hdigest, hseal]
  rw [deferClose_trace, deferFlush_trace]
  constructor
  · repeat' split
    all_goals simp [St.call, St.fail, St.failIf, startAuthSessionCall]
  · repeat' split
    all_goals
      simp [St.call, St.fail, St.failIf, startAuthSessionCall, policyAssertions,
        Call.isPolicyAssertion]

theorem unseal_policyAssertions (f : Flags) (w : World) (errors : List GoError)
    (h objectHandle : Nat) (hpcr : 0 ≤ f.pcr ∧ f.pcr ≤ 23)
    (hobject : Sscanf f.objectHandleFlag = .ok objectHandle)
    (hstart : w.startAuthSession = (h, none)) :
    policyAssertions (Unseal.unseal f w errors).trace =
      [.StartAuthSession HandleNull HandleNull (List.replicate 16 0) [] .SessionPolicy
         .AlgNull .AlgSHA256,
       .PolicyPCR h [] { Hash := .AlgSHA256, PCRs := [f.pcr] },
       .PolicyPassword h] := by
  have hp : ¬ (f.pcr < -1 ∨ f.pcr > 23) := by omega
  have hne : f.pcr ≠ -1 := by omega
  unfold Unseal.unseal
  simp only [hp, hne, hobject, hstart, if_false, if_true, ne_eq, not_false_eq_true]
  rw [deferClose_trace, deferFlush_trace]
  simp [St.call_trace, St.failIf_trace, startAuthSessionCall, policyAssertions,
    Call.isPolicyAssertion]

/-- C11: for every `pcr` in [0,23], when the device calls of `seal` succeed and the
sessions of both runs get the handle `h`, the calls by which `unseal` opens and asserts
its policy session are, in order and with equal arguments, the calls by which `seal`
does: `StartAuthSession` with the null handle as `tpmKey` and `bindKey` and SHA256, then
`PolicyPCR` with the empty expected digest and the selection SHA256, [pcr], then
`PolicyPassword`. In `seal` these come right after `OpenTPM` and before
`PolicyGetDigest`, and the digest that call returns is the policy argument of `Seal`. -/
theorem unseal_policy_matches_seal (fs fu : Flags) (ws wu : World)
    (errorsS errorsU : List GoError) (pcr : Int) (h parentHandle objectHandle : Nat)
    (dataBytes : List Nat)
    (hpcr : 0 ≤ pcr ∧ pcr ≤ 23) (hfs : fs.pcr = pcr) (hfu : fu.pcr = pcr)
    (hparent : Sscanf fs.parentHandleFlag = .ok parentHandle)
    (hdata : DecodeString fs.data = .ok dataBytes) (hlen : dataBytes.length ≤ 128)
    (hobject : Sscanf fu.objectHandleFlag = .ok objectHandle)
    (hopen : ws.openTPM = none) (hstartS : ws.startAuthSession = (h, none))
    (hpolicyPCR : ws.policyPCR = none) (hpolicyPassword : ws.policyPassword = none)
    (hdigest : ws.policyGetDigest.2 = none) (hseal : ws.sealData.2.2 = none)
    (hstartU : wu.startAuthSession = (h, none)) :
    policyAssertions (Unseal.unseal fu wu errorsU).trace =
        policyAssertions (Seal.seal fs ws errorsS).trace ∧
      policyAssertions (Seal.seal fs ws errorsS).trace =
        [.StartAuthSession HandleNull HandleNull (List.replicate 16 0) [] .SessionPolicy
           .AlgNull .AlgSHA256,
         .PolicyPCR h [] { Hash := .AlgSHA256, PCRs := [pcr] },
         .PolicyPassword h] ∧
      ∃ rest, (Seal.seal fs ws errorsS).trace =
        [.OpenTPM fs.tpmPath,
         .StartAuthSession HandleNull HandleNull (List.replicate 16 0) [] .SessionPolicy
           .AlgNull .AlgSHA256,
         .PolicyPCR h [] { Hash := .AlgSHA256, PCRs := [pcr] },
         .PolicyPassword h,
         .PolicyGetDigest h,
         .Seal parentHandle fs.parentPassword fs.objectPassword ws.policyGetDigest.1
           dataBytes] ++ rest := by
  subst hfs
  obtain ⟨htake, hS⟩ := seal_trace_take fs ws errorsS h parentHandle dataBytes hpcr hparent
    hdata hlen hopen hstartS hpolicyPCR hpolicyPassword hdigest hseal
  have hU := unseal_policyAssertions fu wu errorsU h objectHandle (by omega) hobject hstartU
  rw [hfu] at hU
  refine ⟨by rw [hU, hS], hS, (Seal.seal fs ws errorsS).trace.drop 6, ?_⟩
  rw [← htake, List.take_append_drop]

/-- C11 at `pcr = 7` on a device where every call succeeds. -/
theorem unseal_policy_matches_seal_witness :
    policyAssertions (Unseal.unseal Examples.unsealFlags Examples.worldOk []).trace =
        policyAssertions (Seal.seal Examples.sealFlags Examples.worldOk []).trace ∧
      policyAssertions (Seal.seal Examples.sealFlags Examples.worldOk []).trace =
        [.StartAuthSession HandleNull HandleNull (List.replicate 16 0) [] .SessionPolicy
           .AlgNull .AlgSHA256,
         .PolicyPCR 0x03000000 [] { Hash := .AlgSHA256, PCRs := [7] },
         .PolicyPassword 0x03000000] ∧
      ∃ rest, (Seal.seal Examples.sealFlags Examples.worldOk []).trace =
        [.OpenTPM "/dev/tpm0",
         .StartAuthSession HandleNull HandleNull (List.replicate 16 0) [] .SessionPolicy
           .AlgNull .AlgSHA256,
         .PolicyPCR 0x03000000 [] { Hash := .AlgSHA256, PCRs := [7] },
         .PolicyPassword 0x03000000,
         .PolicyGetDigest 0x03000000,
         .Seal 0x80000001 "" "" [] [0, 255]] ++ rest :=
  unseal_policy_matches_seal Examples.sealFlags Examples.unsealFlags Examples.worldOk
    Examples.worldOk [] [] 7 0x03000000 0x80000001 0x80000002 [0, 255]
    (by decide) rfl rfl (by decide) (by decide) (by decide) (by decide)
    rfl rfl rfl rfl rfl rfl rfl

end GoTpm
